import Mathlib

/-!
Verification of the sd-notify adapter against its specification.

The definitions below are a shallow embedding of the Rust sources:
  src/message.rs   (wire message vocabulary and its parser),
  src/event.rs     (event enumeration and the event listener body),
  src/config.rs    (configuration cell, Seconds, the config writer),
  src/status.rs    (status cell and the status writer),
  src/server/uds.rs (datagram processing),
  src/timer/watchdog.rs and src/timer/startup.rs (the two timers),
  src/main.rs      (ready barrier).

Numeric conventions: Rust f64 values are modelled by exact rationals
plus explicit infinity and NaN markers (the Sec type below); machine
integers are modelled by Int with the i32 range check made explicit.
Fallible operations return Option or Except.
-/

/-- Model of the f64-backed Seconds newtype of src/config.rs.  A value is
either a finite rational, one of the two infinities, or NaN.  The wire
parser and the configuration only ever manipulate these through the
operations defined below. -/
inductive Sec where
  | fin (q : ℚ)
  | inf
  | negInf
  | nan
deriving DecidableEq, Repr

namespace Sec

/-- Model of f64 addition restricted to the values Sec represents (the
derive_more Add on Seconds).  inf + negInf is NaN, NaN is absorbing. -/
def add : Sec → Sec → Sec
  | fin a, fin b => fin (a + b)
  | nan, _ => nan
  | _, nan => nan
  | inf, negInf => nan
  | negInf, inf => nan
  | inf, _ => inf
  | _, inf => inf
  | negInf, _ => negInf
  | _, negInf => negInf

instance : Add Sec := ⟨Sec.add⟩

/-- Model of f64 division by the positive constant 1_000_000.0
(the micro_second macro in src/message.rs divides the parsed value by
SECOND_TO_MICROSECOND). -/
def divMicro : Sec → Sec
  | fin q => fin (q / 1000000)
  | inf => inf
  | negInf => negInf
  | nan => nan

/-- Model of the f64 equality operator (PartialEq on Seconds): NaN is not
equal to anything, including itself; otherwise structural equality. -/
def feq : Sec → Sec → Bool
  | fin a, fin b => a = b
  | inf, inf => true
  | negInf, negInf => true
  | _, _ => false

/-- Model of Duration::from_secs_f64 (the From Seconds for Duration impl in
src/config.rs): defined exactly for finite non-negative values; Rust panics
on negative, infinite or NaN input, modelled here as none. -/
def toDur : Sec → Option ℚ
  | fin q => if q < 0 then none else some q
  | _ => none

end Sec

/-- Splits a character list at the first occurrence of sep, returning the
parts before and after it; none when sep does not occur.  Model of
str::split_once used by Message::from_str. -/
def splitOnce (sep : Char) : List Char → Option (List Char × List Char)
  | [] => none
  | c :: cs =>
    if c = sep then some ([], cs)
    else
      match splitOnce sep cs with
      | none => none
      | some (l, r) => some (c :: l, r)

/-- Numeric value of a list of decimal digit characters, most significant
first; none when the list is empty or contains a non-digit. -/
def digitsToNat : List Char → Option ℕ
  | [] => none
  | cs =>
    if cs.all Char.isDigit then
      some (cs.foldl (fun acc c => acc * 10 + (c.toNat - '0'.toNat)) 0)
    else none

/-- Model of str::parse::<i32>: optional sign, a nonempty run of decimal
digits, and the i32 range check. -/
def parseI32 (cs : List Char) : Option ℤ :=
  let signed : Bool × List Char :=
    match cs with
    | '-' :: rest => (true, rest)
    | '+' :: rest => (false, rest)
    | rest => (false, rest)
  match digitsToNat signed.2 with
  | none => none
  | some n =>
    let v : ℤ := if signed.1 then -(n : ℤ) else (n : ℤ)
    if -(2 ^ 31) ≤ v ∧ v < 2 ^ 31 then some v else none

/-- Mantissa and exponent parts of a float literal: digits, an optional
point with further digits, requiring at least one digit overall.  Returns
the exact rational value. -/
def parseMantissa (cs : List Char) : Option ℚ :=
  let intPart := cs.takeWhile Char.isDigit
  let rest := cs.dropWhile Char.isDigit
  match rest with
  | [] =>
    match digitsToNat intPart with
    | some n => some (n : ℚ)
    | none => none
  | '.' :: fracPart =>
    if fracPart.all Char.isDigit ∧ (intPart ≠ [] ∨ fracPart ≠ []) then
      let intVal : ℕ := intPart.foldl (fun acc c => acc * 10 + (c.toNat - '0'.toNat)) 0
      let fracVal : ℕ := fracPart.foldl (fun acc c => acc * 10 + (c.toNat - '0'.toNat)) 0
      some ((intVal : ℚ) + (fracVal : ℚ) / (10 ^ fracPart.length : ℚ))
    else none
  | _ => none

/-- Model of str::parse::<f64> as an exact-rational reading of the float
grammar: optional sign, then inf, infinity, nan (lowercased comparison) or
a decimal mantissa with optional e-exponent.  Rounding to binary64 is not
modelled; every accepted literal is represented exactly. -/
def parseF64 (cs : List Char) : Option Sec :=
  let signed : Bool × List Char :=
    match cs with
    | '-' :: rest => (true, rest)
    | '+' :: rest => (false, rest)
    | rest => (false, rest)
  let neg := signed.1
  let body := signed.2
  let lower := body.map Char.toLower
  if lower = "inf".toList ∨ lower = "infinity".toList then
    some (if neg then Sec.negInf else Sec.inf)
  else if lower = "nan".toList then
    some Sec.nan
  else
    let mantPart := body.takeWhile (fun c => c ≠ 'e' ∧ c ≠ 'E')
    let expPart := body.dropWhile (fun c => c ≠ 'e' ∧ c ≠ 'E')
    match parseMantissa mantPart with
    | none => none
    | some m =>
      let signedM : ℚ := if neg then -m else m
      match expPart with
      | [] => some (Sec.fin signedM)
      | _ :: expDigits =>
        let esigned : Bool × List Char :=
          match expDigits with
          | '-' :: rest => (true, rest)
          | '+' :: rest => (false, rest)
          | rest => (false, rest)
        match digitsToNat esigned.2 with
        | none => none
        | some e =>
          let scale : ℚ := if esigned.1 then 1 / 10 ^ e else 10 ^ e
          some (Sec.fin (signedM * scale))

/-- Event enumeration of src/event.rs. -/
inductive Event where
  | Ready
  | Reloading
  | Stopping
  | ErrorNumber
  | BusError
  | Watchdog
  | WatchdogTrigger
  | WatchdogTimeout
  | StartTimeout
deriving DecidableEq, Repr

/-- NotifyAccess enumeration of src/message.rs. -/
inductive NotifyAccess where
  | None
  | Main
  | Exec
  | All
deriving DecidableEq, Repr

/-- Error enumeration of src/error.rs, restricted to the variants the
embedded code paths can produce; payloads kept where the claims inspect
them. -/
inductive Error where
  | MessageSplit (s : String)
  | MessageParseInt
  | MessageParseFloat
  | MessageUndefined (s : String)
  | ParseNotifyAccess (s : String)
  | ParseEvent (s : String)
  | EventShutdown (e : Event)
deriving DecidableEq, Repr

/-- Message enumeration of src/message.rs (the recognised wire
vocabulary). -/
inductive Message where
  | Ready
  | Reloading
  | Stopping
  | MonotonicMicrosecond (s : Sec)
  | Status (s : String)
  | NotifyAccess (a : NotifyAccess)
  | ErrorNumber (n : ℤ)
  | BusError (s : String)
  | ExitStatus (n : ℤ)
  | MainPID (n : ℤ)
  | Watchdog
  | WatchdogTrigger
  | WatchdogMicrosecond (s : Sec)
  | ExtendTimeoutMicrosecond (s : Sec)
  | FDStore
  | FDStoreRemove
  | FDName (s : String)
  | FDPoll
  | Barrier
deriving DecidableEq, Repr

instance {ε α : Type} [DecidableEq ε] [DecidableEq α] : DecidableEq (Except ε α) := by
  intro a b
  cases a <;> cases b
  case ok.ok x y =>
    exact if h : x = y then .isTrue (by rw [h]) else .isFalse (by intro he; cases he; exact h rfl)
  case error.error x y =>
    exact if h : x = y then .isTrue (by rw [h]) else .isFalse (by intro he; cases he; exact h rfl)
  all_goals exact .isFalse (by intro he; cases he)

/-- Model of the FromStr impl for NotifyAccess in src/message.rs. -/
def NotifyAccess.fromStr (s : String) : Except Error NotifyAccess :=
  if s = "none" then .ok .None
  else if s = "main" then .ok .Main
  else if s = "exec" then .ok .Exec
  else if s = "all" then .ok .All
  else .error (.ParseNotifyAccess s)

/-- Key-value match of the FromStr impl for Message in src/message.rs, the
arms taken in source order; s is the whole line, used in the
MessageUndefined payload.  The micro_second macro parses the value as f64
and divides by 1_000_000; the parse_message macro parses the value as
i32. -/
def Message.fromStrKV (key value s : String) : Except Error Message :=
  let microSecond (mk : Sec → Message) : Except Error Message :=
    match parseF64 value.toList with
    | some x => .ok (mk (Sec.divMicro x))
    | none => .error .MessageParseFloat
  let parseMessage (mk : ℤ → Message) : Except Error Message :=
    match parseI32 value.toList with
    | some n => .ok (mk n)
    | none => .error .MessageParseInt
  if key = "READY" ∧ value = "1" then .ok .Ready
    else if key = "RELOADING" ∧ value = "1" then .ok .Reloading
    else if key = "STOPPING" ∧ value = "1" then .ok .Stopping
    else if key = "MONOTONIC_USEC" then microSecond .MonotonicMicrosecond
    else if key = "STATUS" then .ok (.Status value)
    else if key = "NOTIFYACCESS" then
      match NotifyAccess.fromStr value with
      | .ok a => .ok (.NotifyAccess a)
      | .error e => .error e
    else if key = "ERRNO" then parseMessage .ErrorNumber
    else if key = "BUSERROR" then .ok (.BusError value)
    else if key = "EXIT_STATUS" then parseMessage .ExitStatus
    else if key = "MAINPID" then parseMessage .MainPID
    else if key = "WATCHDOG" ∧ value = "1" then .ok .Watchdog
    else if key = "WATCHDOG" ∧ value = "trigger" then .ok .WatchdogTrigger
    else if key = "WATCHDOG_USEC" then microSecond .WatchdogMicrosecond
    else if key = "EXTEND_TIMEOUT_USEC" then microSecond .ExtendTimeoutMicrosecond
    else if key = "FDSTORE" ∧ value = "1" then .ok .FDStore
    else if key = "FDSTOREREMOVE" ∧ value = "1" then .ok .FDStoreRemove
    else if key = "FDNAME" then .ok (.FDName value)
  else if key = "FDPOLL" ∧ value = "0" then .ok .FDPoll
  else if key = "BARRIER" ∧ value = "1" then .ok .Barrier
  else .error (.MessageUndefined s)

/-- Model of the FromStr impl for Message in src/message.rs: split the line
at the first equals sign (err MessageSplit when there is none), then match
(key, value) against the source arms via fromStrKV. -/
def Message.fromStr (s : String) : Except Error Message :=
  match splitOnce '=' s.toList with
  | none => .error (.MessageSplit s)
  | some (k, v) => Message.fromStrKV (String.mk k) (String.mk v) s

example : Message.fromStr "READY=1" = .ok .Ready := by rfl
example : Message.fromStr "READY=0" = .error (.MessageUndefined "READY=0") := by rfl
example : Message.fromStr "WATCHDOG=trigger" = .ok .WatchdogTrigger := by rfl
example : Message.fromStr "NOEQ" = .error (.MessageSplit "NOEQ") := by rfl
example : Message.fromStr "WATCHDOG_USEC=-1000000" = .ok (.WatchdogMicrosecond (.fin (-1))) := by
  have h : Message.fromStr "WATCHDOG_USEC=-1000000"
      = .ok (.WatchdogMicrosecond (Sec.fin ((-1000000 : ℚ) / 1000000))) := by rfl
  rw [h]
  norm_num
example : Message.fromStr "ERRNO=-12" = .ok (.ErrorNumber (-12)) := by rfl
example : Message.fromStr "STATUS=a=b" = .ok (.Status "a=b") := by rfl
example : Message.fromStr "EXTEND_TIMEOUT_USEC=500000" = .ok (.ExtendTimeoutMicrosecond (.fin (1/2))) := by
  have h : Message.fromStr "EXTEND_TIMEOUT_USEC=500000"
      = .ok (.ExtendTimeoutMicrosecond (Sec.fin ((500000 : ℚ) / 1000000))) := by rfl
  rw [h]
  norm_num

/-- EventList of src/event.rs: a list of events with a contains test. -/
def EventList : Type := List Event

/-- Membership test of src/event.rs (slice contains). -/
def EventList.contains (l : EventList) (e : Event) : Bool :=
  List.contains l e

/-- Configuration cell of src/config.rs, restricted to the fields the
embedded components read or write.  Socket path, port and logging fields
play no role in the claims. -/
structure Configuration where
  echo : Bool
  initial_livez : Bool
  initial_readyz : Bool
  allow_message_watchdog_usec : Bool
  allow_message_extend_timeout_usec : Bool
  status_livez_true : EventList
  status_livez_false : EventList
  status_readyz_true : EventList
  status_readyz_false : EventList
  status_shutdown : EventList
  unit_timeout_start_sec : Sec
  unit_watchdog_sec : Sec

/-- ConfigurationChange of src/config.rs. -/
inductive ConfigurationChange where
  | WatchdogTimeout (s : Sec)
  | StartupTimeout (s : Sec)
deriving DecidableEq, Repr

/-- ChangeOperation of src/status.rs. -/
inductive ChangeOperation where
  | Keep
  | Set (b : Bool)
deriving DecidableEq, Repr

/-- Change triple of src/status.rs. -/
structure Change where
  healthz : ChangeOperation
  livez : ChangeOperation
  readyz : ChangeOperation
deriving DecidableEq, Repr

/-- Status cell of src/status.rs. -/
structure Status where
  healthz : Bool
  livez : Bool
  readyz : Bool
deriving DecidableEq, Repr

/-- Status::from_config of src/status.rs. -/
def Status.from_config (config : Configuration) : Status :=
  { healthz := false
    livez := config.initial_livez
    readyz := config.initial_readyz }

/-- Watchdog-timer message enumeration of src/timer/watchdog.rs. -/
inductive WatchdogMessage where
  | Wake
  | KeepAlive
  | Trigger
  | NewTimeout
deriving DecidableEq, Repr

/-- Per-iteration body of event_listener in src/event.rs, in source order:
first the watchdog-message match (Watchdog sends KeepAlive, WatchdogTrigger
sends Trigger, WatchdogTimeout sends NewTimeout), then the status_shutdown
check, which returns the EventShutdown error before any StatusChange is
sent; otherwise the four classifier checks run in order (true before
false) and a single Change is sent.  The result lists the watchdog
messages sent, the status changes sent, and the terminating error if
any. -/
def eventStep (config : Configuration) (event : Event) :
    List WatchdogMessage × List Change × Option Error :=
  let watchdogSent : List WatchdogMessage :=
    match event with
    | .Watchdog => [.KeepAlive]
    | .WatchdogTrigger => [.Trigger]
    | .WatchdogTimeout => [.NewTimeout]
    | _ => []
  let healthz_operation := ChangeOperation.Keep
  let livez_operation := ChangeOperation.Keep
  let readyz_operation := ChangeOperation.Keep
  if config.status_shutdown.contains event then
    (watchdogSent, [], some (.EventShutdown event))
  else
    let livez_operation :=
      if config.status_livez_true.contains event then ChangeOperation.Set true
      else livez_operation
    let livez_operation :=
      if config.status_livez_false.contains event then ChangeOperation.Set false
      else livez_operation
    let readyz_operation :=
      if config.status_readyz_true.contains event then ChangeOperation.Set true
      else readyz_operation
    let readyz_operation :=
      if config.status_readyz_false.contains event then ChangeOperation.Set false
      else readyz_operation
    (watchdogSent,
     [{ healthz := healthz_operation, livez := livez_operation, readyz := readyz_operation }],
     none)

/-- Dispatch of one parsed message in process_datagram of src/server/uds.rs:
the configuration changes and events it sends, in order.  The
ExtendTimeoutMicrosecond arm reads the currently configured
unit_timeout_start_sec and adds the extension. -/
def processMessage (config : Configuration) (message : Message) :
    List ConfigurationChange × List Event :=
  match message with
  | .Ready => ([], [.Ready])
  | .Reloading => ([], [.Reloading])
  | .Stopping => ([], [.Stopping])
  | .ErrorNumber _ => ([], [.ErrorNumber])
  | .BusError _ => ([], [.BusError])
  | .Watchdog => ([], [.Watchdog])
  | .WatchdogTrigger => ([], [.WatchdogTrigger])
  | .WatchdogMicrosecond timeout => ([.WatchdogTimeout timeout], [])
  | .ExtendTimeoutMicrosecond extension =>
    ([.StartupTimeout (config.unit_timeout_start_sec + extension)], [])
  | _ => ([], [])

/-- Model of str::lines: split on newline, drop one trailing carriage
return per line, and do not yield a final empty line produced by a
terminating newline. -/
def linesOf (s : String) : List String :=
  let parts := (s.toList.splitOn '\n').map fun l =>
    if l.getLast? = some '\r' then l.dropLast else l
  let parts := if s.toList.getLast? = some '\n' ∨ s.toList = [] then parts.dropLast else parts
  parts.map String.mk

example : linesOf "a\nb" = ["a", "b"] := by rfl
example : linesOf "a\r\nb\n" = ["a", "b"] := by rfl
example : linesOf "" = [] := by rfl
example : linesOf "a\n\nb" = ["a", "", "b"] := by rfl

/-- Model of collect over Result in process_datagram of src/server/uds.rs:
the first parse error aborts the whole collection. -/
def collectResults (f : String → Except Error Message) :
    List String → Except Error (List Message)
  | [] => .ok []
  | l :: ls =>
    match f l with
    | .error e => .error e
    | .ok m =>
      match collectResults f ls with
      | .error e => .error e
      | .ok ms => .ok (m :: ms)

/-- process_datagram of src/server/uds.rs: parse every line first,
propagating the first parse error; then dispatch each message in order,
concatenating the configuration changes and events sent.  Echo to stdout
is not modelled. -/
def processDatagram (config : Configuration) (datagram : String) :
    Except Error (List ConfigurationChange × List Event) :=
  match collectResults Message.fromStr (linesOf datagram) with
  | .error e => .error e
  | .ok messages =>
    .ok (messages.foldl
      (fun acc m =>
        let out := processMessage config m
        (acc.1 ++ out.1, acc.2 ++ out.2))
      ([], []))

/-- Per-change body of config_writer in src/config.rs: a WatchdogTimeout
change writes unit_watchdog_sec only when allow_message_watchdog_usec is
set, a StartupTimeout change writes unit_timeout_start_sec only when
allow_message_extend_timeout_usec is set; a rejected change logs a warning
(the Bool in the result) and leaves the configuration untouched.  The loop
never terminates with an error on a change, so the step is total. -/
def configStep (config : Configuration) (change : ConfigurationChange) :
    Configuration × Bool :=
  match change with
  | .WatchdogTimeout timeout =>
    if config.allow_message_watchdog_usec then
      ({ config with unit_watchdog_sec := timeout }, false)
    else (config, true)
  | .StartupTimeout timeout =>
    if config.allow_message_extend_timeout_usec then
      ({ config with unit_timeout_start_sec := timeout }, false)
    else (config, true)

/-- Application of one ChangeOperation in status_writer of src/status.rs. -/
def applyOperation (old : Bool) : ChangeOperation → Bool
  | .Keep => old
  | .Set value => value

/-- Application of one Change triple in status_writer of src/status.rs:
all three fields are updated under one exclusive acquisition. -/
def applyChange (status : Status) (change : Change) : Status :=
  { healthz := applyOperation status.healthz change.healthz
    livez := applyOperation status.livez change.livez
    readyz := applyOperation status.readyz change.readyz }

/-- Status-writer loop of src/status.rs folded over a list of received
changes. -/
def statusWriterRun (status : Status) (changes : List Change) : Status :=
  changes.foldl applyChange status

/-- Number of long-lived tasks spawned by adapter() in src/main.rs: UDS
server, HTTP server, event listener, startup timer, watchdog timer, status
writer and config writer; handles.len() at the barrier spawn point. -/
def num_handles : ℕ := 7

/-- StatusChange submitted by the ready-barrier task in src/main.rs. -/
def barrierChange : Change :=
  { healthz := .Set true, livez := .Keep, readyz := .Keep }

/-- Ready-barrier task of src/main.rs: it receives num_handles tokens from
the ready queue and only then submits barrierChange; with fewer tokens it
is still blocked and has submitted nothing. -/
def readyBarrier (tokens : List Unit) : List Change :=
  if num_handles ≤ tokens.length then [barrierChange] else []

/-- Mutable state of the watchdog timer loop in src/timer/watchdog.rs:
the current duration (a Duration, hence a non-negative rational in this
model) and the instant of the last keep-alive. -/
structure WdState where
  duration : ℚ
  last : ℚ
deriving DecidableEq, Repr

/-- One wakeup of the watchdog select loop: the instant at which it fires
and the message it delivers (Wake stands for expiry of the armed sleep). -/
structure WdArrival where
  time : ℚ
  msg : WatchdogMessage
deriving DecidableEq, Repr

/-- One iteration of the watchdog timer loop of src/timer/watchdog.rs:
Wake compares now minus last_timestamp against duration and emits
WatchdogTimeout when strictly greater; KeepAlive and Trigger reset
last_timestamp to now; NewTimeout re-reads unit_watchdog_sec from the
configuration and converts it to a Duration (none models the panic of
Duration::from_secs_f64 on a negative, infinite or NaN value). -/
def wdStep (cfgWatchdogSec : Sec) (st : WdState) (a : WdArrival) :
    Option (WdState × List Event) :=
  match a.msg with
  | .Wake =>
    some (st, if a.time - st.last > st.duration then [.WatchdogTimeout] else [])
  | .KeepAlive => some ({ st with last := a.time }, [])
  | .Trigger => some ({ st with last := a.time }, [])
  | .NewTimeout =>
    match Sec.toDur cfgWatchdogSec with
    | some d => some ({ st with duration := d }, [])
    | none => none

/-- Watchdog timer loop folded over a list of arrivals, collecting the
events sent to the event listener. -/
def wdRun (cfgWatchdogSec : Sec) (st : WdState) :
    List WdArrival → Option (WdState × List Event)
  | [] => some (st, [])
  | a :: rest =>
    match wdStep cfgWatchdogSec st a with
    | none => none
    | some (st', evs) =>
      match wdRun cfgWatchdogSec st' rest with
      | none => none
      | some (stF, evsF) => some (stF, evs ++ evsF)

/-- Select-semantics side condition of the watchdog loop: when duration is
zero the loop arms no sleep (it blocks on future::pending), so a Wake
arrival is only possible while the current duration is non-zero.  The
predicate walks the trace threading the state through wdStep. -/
def wdWakeOk (cfgWatchdogSec : Sec) (st : WdState) : List WdArrival → Bool
  | [] => true
  | a :: rest =>
    (a.msg != .Wake || st.duration != 0) &&
    (match wdStep cfgWatchdogSec st a with
     | none => true
     | some (st', _) => wdWakeOk cfgWatchdogSec st' rest)

/-- Sleep phase of the startup timer loop in src/timer/startup.rs, given
the sequence of unit_timeout_start_sec values observed after each sleep.
The loop breaks when the observed value equals the current timeout
(f64 equality); otherwise the next sleep is the Duration difference
new_timeout minus old timeout (none models the panics of
Duration::from_secs_f64 and of Duration subtraction underflow) and the
current timeout becomes the observed value.  Returns the sleeps performed
after the first one and whether the loop broke. -/
def startupSleeps (timeout : Sec) : List Sec → Option (List ℚ × Bool)
  | [] => some ([], false)
  | r :: rs =>
    if Sec.feq timeout r then some ([], true)
    else
      match Sec.toDur r, Sec.toDur timeout with
      | some dr, some dt =>
        if dr < dt then none
        else
          match startupSleeps r rs with
          | none => none
          | some (ss, b) => some ((dr - dt) :: ss, b)
      | _, _ => none

/-- Startup timer task of src/timer/startup.rs: if the configured timeout
is +infinity the task returns immediately, performing no sleep and sending
nothing; otherwise it sleeps for the timeout, runs the re-read loop, and
on break sends StartTimeout exactly when readyz is still false at that
moment.  Returns the list of sleeps performed and the events sent. -/
def startupRun (t0 : Sec) (reads : List Sec) (readyz : Bool) :
    Option (List ℚ × List Event) :=
  if Sec.feq t0 Sec.inf then some ([], [])
  else
    match Sec.toDur t0 with
    | none => none
    | some d0 =>
      match startupSleeps t0 reads with
      | none => none
      | some (ss, broke) =>
        some (d0 :: ss, if broke ∧ readyz = false then [.StartTimeout] else [])

example : startupRun Sec.inf [] false = some ([], []) := by rfl
example : startupRun (Sec.fin 90) [Sec.fin 90] false = some ([90], [.StartTimeout]) := by rfl
example : startupRun (Sec.fin 90) [Sec.fin 90] true = some ([90], []) := by rfl
example :
    startupRun (Sec.fin 1) [Sec.fin 2, Sec.fin 2] false = some ([1, 1], [.StartTimeout]) := by
  have h : startupRun (Sec.fin 1) [Sec.fin 2, Sec.fin 2] false
      = some ([1, (2 : ℚ) - 1], [.StartTimeout]) := by rfl
  rw [h]
  norm_num
example : wdRun (Sec.fin 0) ⟨0, 0⟩ [⟨1, .KeepAlive⟩, ⟨2, .NewTimeout⟩] = some (⟨0, 1⟩, []) := by
  rfl

/-- C1: the claim states that for an event in status_shutdown the listener
terminates before emitting any watchdog-timer message.  In the source the
watchdog match runs first: with status_shutdown containing Watchdog, the
iteration for Watchdog sends KeepAlive to the watchdog timer and only then
returns the shutdown fatal (and sends no StatusChange), refuting the
claim. -/
theorem c1_counterexample :
    let config : Configuration :=
      { echo := false, initial_livez := false, initial_readyz := false,
        allow_message_watchdog_usec := true, allow_message_extend_timeout_usec := true,
        status_livez_true := [], status_livez_false := [],
        status_readyz_true := [], status_readyz_false := [],
        status_shutdown := [Event.Watchdog],
        unit_timeout_start_sec := Sec.fin 90, unit_watchdog_sec := Sec.fin 0 }
    config.status_shutdown.contains Event.Watchdog = true ∧
    (eventStep config Event.Watchdog).1 = [WatchdogMessage.KeepAlive] ∧
    (eventStep config Event.Watchdog).2.1 = [] ∧
    (eventStep config Event.Watchdog).2.2 = some (Error.EventShutdown Event.Watchdog) := by
  exact ⟨rfl, rfl, rfl, rfl⟩

/-- C1 (amended): for every event e in status_shutdown the event listener
terminates the adapter with the shutdown-event fatal and emits no
StatusChange for e; the watchdog-timer match however runs before the
shutdown check, so when e is Watchdog, WatchdogTrigger or WatchdogTimeout
exactly one KeepAlive, Trigger or NewTimeout message is sent to the
watchdog timer before termination, and for all other events none is. -/
theorem c1_shutdown_event (config : Configuration) (e : Event)
    (h : config.status_shutdown.contains e = true) :
    (eventStep config e).2.1 = [] ∧
    (eventStep config e).2.2 = some (Error.EventShutdown e) ∧
    (eventStep config e).1 =
      (match e with
       | .Watchdog => [WatchdogMessage.KeepAlive]
       | .WatchdogTrigger => [WatchdogMessage.Trigger]
       | .WatchdogTimeout => [WatchdogMessage.NewTimeout]
       | _ => []) := by
  refine ⟨?_, ?_, ?_⟩ <;> simp only [eventStep, h, if_true]
  cases e <;> rfl

/-- C1 witness: the amended statement at a concrete configuration whose
status_shutdown contains Watchdog. -/
theorem c1_shutdown_event_witness :
    let config : Configuration :=
      { echo := false, initial_livez := false, initial_readyz := false,
        allow_message_watchdog_usec := true, allow_message_extend_timeout_usec := true,
        status_livez_true := [], status_livez_false := [],
        status_readyz_true := [], status_readyz_false := [],
        status_shutdown := [Event.Watchdog],
        unit_timeout_start_sec := Sec.fin 90, unit_watchdog_sec := Sec.fin 0 }
    (eventStep config Event.Watchdog).2.1 = [] ∧
    (eventStep config Event.Watchdog).2.2 = some (Error.EventShutdown Event.Watchdog) ∧
    (eventStep config Event.Watchdog).1 = [WatchdogMessage.KeepAlive] :=
  c1_shutdown_event _ Event.Watchdog (by decide)

/-- C3: when an event is contained in both the true and the false
classifier of a flag, the emitted StatusChange carries Set(false) for that
flag, because the false-classifier check runs after the true-classifier
check; stated for livez and readyz, for any event that does not trigger
shutdown (a shutdown event emits no StatusChange at all). -/
theorem c3_false_wins_ties (config : Configuration) (e : Event)
    (hshut : config.status_shutdown.contains e = false) :
    (config.status_livez_true.contains e = true →
     config.status_livez_false.contains e = true →
     (eventStep config e).2.1.map Change.livez = [ChangeOperation.Set false]) ∧
    (config.status_readyz_true.contains e = true →
     config.status_readyz_false.contains e = true →
     (eventStep config e).2.1.map Change.readyz = [ChangeOperation.Set false]) := by
  constructor
  · intro _ hlf
    simp [eventStep, hshut, hlf]
  · intro _ hrf
    simp [eventStep, hshut, hrf]

/-- C3 witness: a configuration whose livez and readyz classifiers both
contain Ready on the true and the false side. -/
theorem c3_false_wins_ties_witness :
    let config : Configuration :=
      { echo := false, initial_livez := false, initial_readyz := false,
        allow_message_watchdog_usec := true, allow_message_extend_timeout_usec := true,
        status_livez_true := [Event.Ready], status_livez_false := [Event.Ready],
        status_readyz_true := [Event.Ready], status_readyz_false := [Event.Ready],
        status_shutdown := [],
        unit_timeout_start_sec := Sec.fin 90, unit_watchdog_sec := Sec.fin 0 }
    (eventStep config Event.Ready).2.1.map Change.livez = [ChangeOperation.Set false] ∧
    (eventStep config Event.Ready).2.1.map Change.readyz = [ChangeOperation.Set false] :=
  ⟨(c3_false_wins_ties _ Event.Ready (by decide)).1 (by decide) (by decide),
   (c3_false_wins_ties _ Event.Ready (by decide)).2 (by decide) (by decide)⟩

/-- C6: a configuration change arriving while the corresponding policy
flag is false leaves the whole configuration cell unchanged, produces the
warning (the Bool of configStep), and the config writer continues: the
step is total, it never terminates with an error. -/
theorem c6_policy_gate (config : Configuration) (t : Sec) :
    (config.allow_message_watchdog_usec = false →
      configStep config (.WatchdogTimeout t) = (config, true)) ∧
    (config.allow_message_extend_timeout_usec = false →
      configStep config (.StartupTimeout t) = (config, true)) := by
  constructor <;> intro h <;> simp [configStep, h]

/-- C6 witness: both policy flags false, a concrete timeout value. -/
theorem c6_policy_gate_witness :
    let config : Configuration :=
      { echo := false, initial_livez := false, initial_readyz := false,
        allow_message_watchdog_usec := false, allow_message_extend_timeout_usec := false,
        status_livez_true := [], status_livez_false := [],
        status_readyz_true := [], status_readyz_false := [],
        status_shutdown := [],
        unit_timeout_start_sec := Sec.fin 90, unit_watchdog_sec := Sec.fin 0 }
    configStep config (.WatchdogTimeout (Sec.fin 1)) = (config, true) ∧
    configStep config (.StartupTimeout (Sec.fin 1)) = (config, true) :=
  ⟨(c6_policy_gate _ (Sec.fin 1)).1 rfl, (c6_policy_gate _ (Sec.fin 1)).2 rfl⟩

/-- Folding status changes whose healthz operation is Keep leaves the
healthz flag of the status cell unchanged. -/
lemma statusWriterRun_healthz_keep (changes : List Change) :
    ∀ (status : Status), (∀ c ∈ changes, c.healthz = .Keep) →
      (statusWriterRun status changes).healthz = status.healthz := by
  induction changes with
  | nil => intro status _; rfl
  | cons c cs ih =>
    intro status hkeep
    have hc : c.healthz = .Keep := hkeep c (by simp)
    have hrest : ∀ x ∈ cs, x.healthz = ChangeOperation.Keep :=
      fun x hx => hkeep x (by simp [hx])
    have : statusWriterRun status (c :: cs) = statusWriterRun (applyChange status c) cs := rfl
    rw [this, ih (applyChange status c) hrest]
    simp [applyChange, hc, applyOperation]

/-- C9: every StatusChange computed by the event listener keeps healthz;
the ready barrier is the unique source of a Set operation on healthz, its
change is exactly Set(true)/Keep/Keep, and it submits it only once it has
received one token per spawned long-lived task; consequently a status cell
that starts from Status::from_config (healthz = false) and receives only
event-listener changes never shows healthz = true. -/
theorem c9_healthz_single_source :
    (∀ (config : Configuration) (e : Event) (c : Change),
        c ∈ (eventStep config e).2.1 → c.healthz = .Keep) ∧
    barrierChange = { healthz := .Set true, livez := .Keep, readyz := .Keep } ∧
    (∀ tokens : List Unit, readyBarrier tokens ≠ [] → num_handles ≤ tokens.length) ∧
    (∀ (config : Configuration) (changes : List Change),
        (∀ c ∈ changes, c.healthz = .Keep) →
        (statusWriterRun (Status.from_config config) changes).healthz = false) := by
  refine ⟨?_, rfl, ?_, ?_⟩
  · intro config e c hc
    unfold eventStep at hc
    by_cases hs : config.status_shutdown.contains e
    · simp [hs] at hc
    · simp [hs] at hc
      rw [hc]
  · intro tokens h
    unfold readyBarrier at h
    by_cases hn : num_handles ≤ tokens.length
    · exact hn
    · simp [hn] at h
  · intro config changes hkeep
    rw [statusWriterRun_healthz_keep changes (Status.from_config config) hkeep]
    rfl

/-- C9 witness: the listener change for Ready under a concrete
configuration keeps healthz, and a run of Keep-healthz changes from the
initial status leaves healthz false. -/
theorem c9_healthz_single_source_witness :
    ({ healthz := .Keep, livez := .Set true, readyz := .Set true } : Change).healthz
        = ChangeOperation.Keep ∧
    (statusWriterRun
        (Status.from_config
          { echo := false, initial_livez := false, initial_readyz := false,
            allow_message_watchdog_usec := true, allow_message_extend_timeout_usec := true,
            status_livez_true := [Event.Ready], status_livez_false := [],
            status_readyz_true := [Event.Ready], status_readyz_false := [],
            status_shutdown := [],
            unit_timeout_start_sec := Sec.fin 90, unit_watchdog_sec := Sec.fin 0 })
        [{ healthz := .Keep, livez := .Set true, readyz := .Set true }]).healthz = false :=
  ⟨c9_healthz_single_source.1
      { echo := false, initial_livez := false, initial_readyz := false,
        allow_message_watchdog_usec := true, allow_message_extend_timeout_usec := true,
        status_livez_true := [Event.Ready], status_livez_false := [],
        status_readyz_true := [Event.Ready], status_readyz_false := [],
        status_shutdown := [],
        unit_timeout_start_sec := Sec.fin 90, unit_watchdog_sec := Sec.fin 0 }
      Event.Ready
      { healthz := .Keep, livez := .Set true, readyz := .Set true }
      (by decide),
   c9_healthz_single_source.2.2.2
      { echo := false, initial_livez := false, initial_readyz := false,
        allow_message_watchdog_usec := true, allow_message_extend_timeout_usec := true,
        status_livez_true := [Event.Ready], status_livez_false := [],
        status_readyz_true := [Event.Ready], status_readyz_false := [],
        status_shutdown := [],
        unit_timeout_start_sec := Sec.fin 90, unit_watchdog_sec := Sec.fin 0 }
      [{ healthz := .Keep, livez := .Set true, readyz := .Set true }]
      (by decide)⟩

/-- Unfolding of one loop iteration of wdRun given the step result. -/
lemma wdRun_cons (c : Sec) (st : WdState) (a : WdArrival) (rest : List WdArrival)
    (st' : WdState) (evs : List Event) (h : wdStep c st a = some (st', evs)) :
    wdRun c st (a :: rest) =
      match wdRun c st' rest with
      | none => none
      | some (stF, evsF) => some (stF, evs ++ evsF) := by
  simp only [wdRun, h]

/-- Invariant run of the watchdog loop with a permanently zero
unit_watchdog_sec: duration stays zero and no event is emitted. -/
lemma wdRun_zero_duration (trace : List WdArrival) :
    ∀ (st : WdState), st.duration = 0 →
      wdWakeOk (Sec.fin 0) st trace = true →
      ∃ stF, wdRun (Sec.fin 0) st trace = some (stF, []) ∧ stF.duration = 0 := by
  induction trace with
  | nil => intro st h0 _; exact ⟨st, rfl, h0⟩
  | cons a rest ih =>
    intro st h0 hok
    unfold wdWakeOk at hok
    rw [Bool.and_eq_true] at hok
    obtain ⟨hfirst, hrest⟩ := hok
    cases hmsg : a.msg with
    | Wake =>
      exfalso
      rw [hmsg] at hfirst
      simp [h0] at hfirst
    | KeepAlive =>
      have hstep : wdStep (Sec.fin 0) st a = some ({ st with last := a.time }, []) := by
        unfold wdStep; rw [hmsg]
      rw [hstep] at hrest
      obtain ⟨stF, hrun, hdur⟩ := ih { st with last := a.time } h0 hrest
      refine ⟨stF, ?_, hdur⟩
      rw [wdRun_cons _ _ _ _ _ _ hstep, hrun]
      rfl
    | Trigger =>
      have hstep : wdStep (Sec.fin 0) st a = some ({ st with last := a.time }, []) := by
        unfold wdStep; rw [hmsg]
      rw [hstep] at hrest
      obtain ⟨stF, hrun, hdur⟩ := ih { st with last := a.time } h0 hrest
      refine ⟨stF, ?_, hdur⟩
      rw [wdRun_cons _ _ _ _ _ _ hstep, hrun]
      rfl
    | NewTimeout =>
      have hstep : wdStep (Sec.fin 0) st a = some ({ st with duration := 0 }, []) := by
        unfold wdStep; rw [hmsg]; rfl
      rw [hstep] at hrest
      obtain ⟨stF, hrun, hdur⟩ := ih { st with duration := 0 } rfl hrest
      refine ⟨stF, ?_, hdur⟩
      rw [wdRun_cons _ _ _ _ _ _ hstep, hrun]
      rfl

/-- C4: with unit_watchdog_sec equal to zero at start-up (so the initial
duration converts to zero) and never changed by a NewTimeout re-read, the
watchdog loop arms no sleep: under the select-semantics side condition
wdWakeOk (a Wake arrival requires a non-zero duration) every run of the
loop emits no WatchdogTimeout event at all. -/
theorem c4_zero_watchdog_no_timeout (last0 : ℚ) (trace : List WdArrival)
    (hok : wdWakeOk (Sec.fin 0) ⟨0, last0⟩ trace = true) :
    Sec.toDur (Sec.fin 0) = some 0 ∧
    ∃ stF, wdRun (Sec.fin 0) ⟨0, last0⟩ trace = some (stF, []) := by
  refine ⟨rfl, ?_⟩
  obtain ⟨stF, hrun, _⟩ := wdRun_zero_duration trace ⟨0, last0⟩ rfl hok
  exact ⟨stF, hrun⟩

/-- C4 witness: a run through a keep-alive, a trigger and a timeout
re-read, starting from a zero duration, yields no event. -/
theorem c4_zero_watchdog_no_timeout_witness :
    Sec.toDur (Sec.fin 0) = some 0 ∧
    ∃ stF, wdRun (Sec.fin 0) ⟨0, 0⟩
      [⟨1, .KeepAlive⟩, ⟨2, .Trigger⟩, ⟨3, .NewTimeout⟩] = some (stF, []) :=
  c4_zero_watchdog_no_timeout 0 [⟨1, .KeepAlive⟩, ⟨2, .Trigger⟩, ⟨3, .NewTimeout⟩] (by decide)

/-- C7: an EXTEND_TIMEOUT_USEC message parses to an extension of value/1e6
seconds, its dispatch emits exactly one StartupTimeout configuration
change whose value is the currently configured unit_timeout_start_sec plus
that extension (so repeated extensions compound on the configured total);
and when the startup timer observes a changed value after a sleep it
sleeps for the difference new minus old and repeats. -/
theorem c7_extend_timeout_semantics :
    (∀ (config : Configuration) (extension : Sec),
        processMessage config (.ExtendTimeoutMicrosecond extension)
          = ([.StartupTimeout (config.unit_timeout_start_sec + extension)], [])) ∧
    (∀ (value s : String) (x : Sec),
        parseF64 value.toList = some x →
        Message.fromStrKV "EXTEND_TIMEOUT_USEC" value s
          = .ok (.ExtendTimeoutMicrosecond (Sec.divMicro x))) ∧
    (∀ q : ℚ, Sec.divMicro (Sec.fin q) = Sec.fin (q / 1000000)) ∧
    (∀ (t r : Sec) (rs : List Sec) (dt dr : ℚ) (ss : List ℚ) (b : Bool),
        Sec.feq t r = false →
        Sec.toDur t = some dt → Sec.toDur r = some dr →
        ¬ dr < dt →
        startupSleeps r rs = some (ss, b) →
        startupSleeps t (r :: rs) = some ((dr - dt) :: ss, b)) := by
  refine ⟨fun config extension => rfl, ?_, fun q => rfl, ?_⟩
  · intro value s x h
    simp only [String.toList] at h
    simp [Message.fromStrKV, h]
  · intro t r rs dt dr ss b hfeq ht hr hlt hrec
    simp only [startupSleeps, hfeq, ht, hr, hrec, Bool.false_eq_true, if_false, hlt]

/-- C7 witness: parsing the value 500000 and a loop iteration that sees the
timeout move from 1 to 2 seconds and sleeps for the difference. -/
theorem c7_extend_timeout_semantics_witness :
    Message.fromStrKV "EXTEND_TIMEOUT_USEC" "500000" "EXTEND_TIMEOUT_USEC=500000"
      = .ok (.ExtendTimeoutMicrosecond (Sec.divMicro (Sec.fin 500000))) ∧
    startupSleeps (Sec.fin 1) [Sec.fin 2] = some ([(2 : ℚ) - 1], false) :=
  ⟨c7_extend_timeout_semantics.2.1 "500000" "EXTEND_TIMEOUT_USEC=500000" (Sec.fin 500000) (by rfl),
   c7_extend_timeout_semantics.2.2.2 (Sec.fin 1) (Sec.fin 2) [] 1 2 [] false
     (by decide) (by decide) (by decide) (by norm_num) (by rfl)⟩

/-- C8: the startup timer terminates immediately, sleeping and emitting
nothing, when unit_timeout_start_sec is +infinity at start-up; otherwise,
when the loop breaks because the configured value is unchanged after a
full sleep, it emits StartTimeout exactly when readyz is false at that
moment, and nothing when readyz is already true. -/
theorem c8_startup_timer (t0 : Sec) (reads : List Sec) (readyz : Bool) :
    (t0 = Sec.inf → startupRun t0 reads readyz = some ([], [])) ∧
    (∀ (d0 : ℚ) (ss : List ℚ),
        Sec.toDur t0 = some d0 →
        startupSleeps t0 reads = some (ss, true) →
        startupRun t0 reads readyz
          = some (d0 :: ss, if readyz then [] else [Event.StartTimeout])) := by
  constructor
  · intro h
    subst h
    rfl
  · intro d0 ss hd hs
    have hfeq : Sec.feq t0 Sec.inf = false := by
      cases t0 <;> simp_all [Sec.toDur, Sec.feq]
    unfold startupRun
    rw [hfeq]
    simp only [Bool.false_eq_true, if_false, hd, hs]
    cases readyz <;> simp

/-- C8 witness: the infinite sentinel does nothing; a 90-second timeout
with an unchanged re-read and readyz still false emits StartTimeout. -/
theorem c8_startup_timer_witness :
    startupRun Sec.inf [] false = some ([], []) ∧
    startupRun (Sec.fin 90) [Sec.fin 90] false = some ([(90 : ℚ)], [Event.StartTimeout]) :=
  ⟨(c8_startup_timer Sec.inf [] false).1 rfl,
   (c8_startup_timer (Sec.fin 90) [Sec.fin 90] false).2 90 [] (by decide) (by decide)⟩

/-- C5: the wire parser accepts a negative WATCHDOG_USEC value, producing
the negative Seconds payload -1, although the specification declares
Seconds non-negative; converting that payload to a Duration is undefined
(Duration::from_secs_f64 panics on negative input), refuting the claim
that the conversion can never panic. -/
theorem c5_negative_microseconds_accepted :
    Message.fromStr "WATCHDOG_USEC=-1000000" = .ok (.WatchdogMicrosecond (Sec.fin (-1))) ∧
    ((-1 : ℚ) < 0) ∧
    Sec.toDur (Sec.fin (-1)) = none := by
  refine ⟨?_, by norm_num, by decide⟩
  have h : Message.fromStr "WATCHDOG_USEC=-1000000"
      = .ok (.WatchdogMicrosecond (Sec.fin ((-1000000 : ℚ) / 1000000))) := by rfl
  rw [h]
  norm_num

/-- Splitting at the separator finds the first occurrence placed after a
separator-free prefix. -/
lemma splitOnce_key (k v : List Char) (hk : '=' ∉ k) :
    splitOnce '=' (k ++ '=' :: v) = some (k, v) := by
  induction k with
  | nil => simp [splitOnce]
  | cons c cs ih =>
    have hc : ¬ c = '=' := by
      intro h
      exact hk (by simp [h])
    have hcs : '=' ∉ cs := fun h => hk (by simp [h])
    show splitOnce '=' (c :: (cs ++ '=' :: v)) = some (c :: cs, v)
    unfold splitOnce
    rw [if_neg hc, ih hcs]

/-- Splitting fails exactly when the separator is absent. -/
lemma splitOnce_none (cs : List Char) (h : '=' ∉ cs) : splitOnce '=' cs = none := by
  induction cs with
  | nil => rfl
  | cons c rest ih =>
    have hc : ¬ c = '=' := by
      intro hcc
      exact h (by simp [hcc])
    have hrest : '=' ∉ rest := fun hm => h (by simp [hm])
    simp only [splitOnce, hc, if_false, ih hrest]

/-- Parsing a line with an equals-free key reduces to the key-value match
of the source. -/
lemma fromStr_keyValue (k v : String) (hk : '=' ∉ k.toList) :
    Message.fromStr (k ++ "=" ++ v) = Message.fromStrKV k v (k ++ "=" ++ v) := by
  unfold Message.fromStr
  have h : (k ++ "=" ++ v).toList = k.toList ++ '=' :: v.toList := by
    have hassoc : (k ++ "=" ++ v).toList = (k.toList ++ ['=']) ++ v.toList := rfl
    rw [hassoc, List.append_assoc]
    rfl
  rw [h, splitOnce_key _ _ hk]
  rfl

/-- Propagation of the first parse error through the collect over
Result. -/
lemma collectResults_error (f : String → Except Error Message) (ls : List String) :
    ∀ l ∈ ls, (∃ e, f l = .error e) → ∃ e, collectResults f ls = .error e := by
  induction ls with
  | nil => intro l hl; cases hl
  | cons a as ih =>
    intro l hl he
    obtain ⟨e, hfe⟩ := he
    rcases List.mem_cons.mp hl with hla | hmem
    · subst hla
      exact ⟨e, by simp [collectResults, hfe]⟩
    · cases hfa : f a with
      | error ea => exact ⟨ea, by simp [collectResults, hfa]⟩
      | ok m =>
        obtain ⟨e2, h2⟩ := ih l hmem ⟨e, hfe⟩
        exact ⟨e2, by simp [collectResults, hfa, h2]⟩

/-- C10: a line whose key is a fixed-literal key but whose value is not
the required literal (READY, RELOADING, STOPPING, FDSTORE, FDSTOREREMOVE
and BARRIER require 1, WATCHDOG requires 1 or trigger, FDPOLL requires 0)
parses to MessageUndefined; a line with no equals sign parses to
MessageSplit; and a datagram containing any failing line makes
process_datagram return the error, which the UDS receiver propagates as a
fatal shutdown, instead of the line being accepted and ignored. -/
theorem c10_malformed_lines_fatal :
    (∀ v : String, v ≠ "1" →
      Message.fromStr ("READY" ++ "=" ++ v) = .error (.MessageUndefined ("READY" ++ "=" ++ v))) ∧
    (∀ v : String, v ≠ "1" →
      Message.fromStr ("RELOADING" ++ "=" ++ v)
        = .error (.MessageUndefined ("RELOADING" ++ "=" ++ v))) ∧
    (∀ v : String, v ≠ "1" →
      Message.fromStr ("STOPPING" ++ "=" ++ v)
        = .error (.MessageUndefined ("STOPPING" ++ "=" ++ v))) ∧
    (∀ v : String, v ≠ "1" → v ≠ "trigger" →
      Message.fromStr ("WATCHDOG" ++ "=" ++ v)
        = .error (.MessageUndefined ("WATCHDOG" ++ "=" ++ v))) ∧
    (∀ v : String, v ≠ "1" →
      Message.fromStr ("FDSTORE" ++ "=" ++ v)
        = .error (.MessageUndefined ("FDSTORE" ++ "=" ++ v))) ∧
    (∀ v : String, v ≠ "1" →
      Message.fromStr ("FDSTOREREMOVE" ++ "=" ++ v)
        = .error (.MessageUndefined ("FDSTOREREMOVE" ++ "=" ++ v))) ∧
    (∀ v : String, v ≠ "0" →
      Message.fromStr ("FDPOLL" ++ "=" ++ v)
        = .error (.MessageUndefined ("FDPOLL" ++ "=" ++ v))) ∧
    (∀ v : String, v ≠ "1" →
      Message.fromStr ("BARRIER" ++ "=" ++ v)
        = .error (.MessageUndefined ("BARRIER" ++ "=" ++ v))) ∧
    (∀ s : String, '=' ∉ s.toList → Message.fromStr s = .error (.MessageSplit s)) ∧
    (∀ (config : Configuration) (d l : String),
      l ∈ linesOf d → (∃ e, Message.fromStr l = .error e) →
      ∃ e, processDatagram config d = .error e) := by
  refine ⟨?_, ?_, ?_, ?_, ?_, ?_, ?_, ?_, ?_, ?_⟩
  · intro v hv
    rw [fromStr_keyValue "READY" v (by decide)]
    simp [Message.fromStrKV, hv]
  · intro v hv
    rw [fromStr_keyValue "RELOADING" v (by decide)]
    simp [Message.fromStrKV, hv]
  · intro v hv
    rw [fromStr_keyValue "STOPPING" v (by decide)]
    simp [Message.fromStrKV, hv]
  · intro v hv hv2
    rw [fromStr_keyValue "WATCHDOG" v (by decide)]
    simp [Message.fromStrKV, hv, hv2]
  · intro v hv
    rw [fromStr_keyValue "FDSTORE" v (by decide)]
    simp [Message.fromStrKV, hv]
  · intro v hv
    rw [fromStr_keyValue "FDSTOREREMOVE" v (by decide)]
    simp [Message.fromStrKV, hv]
  · intro v hv
    rw [fromStr_keyValue "FDPOLL" v (by decide)]
    simp [Message.fromStrKV, hv]
  · intro v hv
    rw [fromStr_keyValue "BARRIER" v (by decide)]
    simp [Message.fromStrKV, hv]
  · intro s hs
    unfold Message.fromStr
    rw [splitOnce_none s.toList hs]
  · intro config d l hmem he
    obtain ⟨e2, h2⟩ := collectResults_error Message.fromStr (linesOf d) l hmem he
    exact ⟨e2, by simp [processDatagram, h2]⟩

/-- C10 witness: the concrete violating lines READY=0, RELOADING=yes,
WATCHDOG=2, FDPOLL=1, BARRIER=0, a line with no equals sign, and a
datagram whose single line WATCHDOG=2 makes process_datagram fail. -/
theorem c10_malformed_lines_fatal_witness :
    Message.fromStr ("READY" ++ "=" ++ "0")
      = .error (.MessageUndefined ("READY" ++ "=" ++ "0")) ∧
    Message.fromStr ("RELOADING" ++ "=" ++ "yes")
      = .error (.MessageUndefined ("RELOADING" ++ "=" ++ "yes")) ∧
    Message.fromStr ("WATCHDOG" ++ "=" ++ "2")
      = .error (.MessageUndefined ("WATCHDOG" ++ "=" ++ "2")) ∧
    Message.fromStr ("FDPOLL" ++ "=" ++ "1")
      = .error (.MessageUndefined ("FDPOLL" ++ "=" ++ "1")) ∧
    Message.fromStr ("BARRIER" ++ "=" ++ "0")
      = .error (.MessageUndefined ("BARRIER" ++ "=" ++ "0")) ∧
    Message.fromStr "NOEQUALS" = .error (.MessageSplit "NOEQUALS") ∧
    (∃ e, processDatagram
      { echo := false, initial_livez := false, initial_readyz := false,
        allow_message_watchdog_usec := true, allow_message_extend_timeout_usec := true,
        status_livez_true := [], status_livez_false := [],
        status_readyz_true := [], status_readyz_false := [],
        status_shutdown := [],
        unit_timeout_start_sec := Sec.fin 90, unit_watchdog_sec := Sec.fin 0 }
      "WATCHDOG=2" = .error e) :=
  ⟨c10_malformed_lines_fatal.1 "0" (by decide),
   c10_malformed_lines_fatal.2.1 "yes" (by decide),
   c10_malformed_lines_fatal.2.2.2.1 "2" (by decide) (by decide),
   c10_malformed_lines_fatal.2.2.2.2.2.2.1 "1" (by decide),
   c10_malformed_lines_fatal.2.2.2.2.2.2.2.1 "0" (by decide),
   c10_malformed_lines_fatal.2.2.2.2.2.2.2.2.1 "NOEQUALS" (by decide),
   c10_malformed_lines_fatal.2.2.2.2.2.2.2.2.2
     { echo := false, initial_livez := false, initial_readyz := false,
       allow_message_watchdog_usec := true, allow_message_extend_timeout_usec := true,
       status_livez_true := [], status_livez_false := [],
       status_readyz_true := [], status_readyz_false := [],
       status_shutdown := [],
       unit_timeout_start_sec := Sec.fin 90, unit_watchdog_sec := Sec.fin 0 }
     "WATCHDOG=2" "WATCHDOG=2" (by decide)
     ⟨.MessageUndefined "WATCHDOG=2", by rfl⟩⟩
